import Mathlib

/-!
Verification of the GS1 identifier codec and dispatch reliability engine.

This file is a shallow embedding, in Lean 4, of the identifier codec and the
dispatch reliability engine of the `tv-pipelines-hudsci` repository, together
with theorems settling the specification claims about them.

Modelling conventions:
* Go byte strings are modelled as `List Char` in the codec (each `Char` stands
  for one byte; all inputs of interest are ASCII).  Status values and
  identifiers in the dispatch engine, which are only ever compared for
  equality, are modelled as Lean `String`s.
* External effects (the record store, the secure submission channel, the
  partner status channel) are modelled as explicit oracle inputs: each
  embedded operation takes the outcome of its external calls as a parameter
  and threads record state explicitly.
* Wall-clock timestamps written by the code are omitted from the record
  state: no claim mentions them.
* Go `float64` failure rates are modelled as `ℚ`; every concrete rate in the
  claims (fractions with denominator 4, threshold 1/2) is exactly
  representable in `float64`, so the comparison results coincide.
-/

namespace HudSci

/-! Identifier codec (`tasks` package, GS1 helpers)

Translated from the GS1 helper functions of the `tasks` package
(`CalculateGS1CheckDigit`, `normalizeToLength`, `ParseGTINFromSGTIN`,
`ParseSSCCFromURN`, ...). -/

/-- One byte of a Go string is a decimal digit: `'0' ≤ c ≤ '9'`.
In Go the check `int(base[i]-'0')` is byte arithmetic, so the value is always
in `0..255` and only the upper bound `> 9` ever filters; this predicate is
equivalent for byte values. -/
def isDigitChar (c : Char) : Bool :=
  48 ≤ c.toNat && c.toNat ≤ 57

/-- Numeric value of a decimal digit byte. -/
def digitVal (c : Char) : Nat :=
  c.toNat - 48

/-- The decimal digit `n` (for `n < 10`) as a character, as produced by Go's
`fmt.Sprintf("%d", n)` for a single digit. -/
def decDigitChar (n : Nat) : Char :=
  Char.ofNat (48 + n)

/-- Weighted sum of `CalculateGS1CheckDigit`: the list is the base string
reversed, `pos` the distance from the right end.  Digits at even distance
weigh 3, at odd distance 1; non-digit bytes are skipped (but still occupy a
position, exactly as the Go loop indexes by `i`). -/
def gs1WeightedSum : List Char → Nat → Nat
  | [], _ => 0
  | c :: rest, pos =>
    (if isDigitChar c then
      (if pos % 2 = 0 then 3 else 1) * digitVal c
    else 0) + gs1WeightedSum rest (pos + 1)

/-- `CalculateGS1CheckDigit` from the `tasks` package: GS1 Modulo-10 check
digit of a numeric base string, returned as a one-character string; empty
input yields empty output. -/
def CalculateGS1CheckDigit (base : List Char) : List Char :=
  if base = [] then []
  else
    let sum := gs1WeightedSum base.reverse 0
    [decDigitChar ((10 - sum % 10) % 10)]

/-- `normalizeToLength` from the `tasks` package: left-pad with `'0'` when
shorter than `length`, truncate with `s[:length]` (the FIRST `length` bytes)
when longer. -/
def normalizeToLength (s : List Char) (length : Nat) : List Char :=
  if s.length < length then List.replicate (length - s.length) '0' ++ s
  else if s.length > length then s.take length
  else s

/-- Go `strings.CutPrefix`: `some rest` when `pre` is a prefix of `s` (with
`s = pre ++ rest`), `none` otherwise. -/
def cutPre : List Char → List Char → Option (List Char)
  | [], s => some s
  | _ :: _, [] => none
  | p :: ps, x :: xs => if x = p then cutPre ps xs else none

/-- Go `strings.Split(s, sep)` for a one-byte separator `c`: split at every
occurrence, keeping empty fields; `Split("", c)` is `[""]`. -/
def splitOnChar (c : Char) : List Char → List (List Char)
  | [] => [[]]
  | x :: xs =>
    if x = c then [] :: splitOnChar c xs
    else
      match splitOnChar c xs with
      | [] => [[x]]
      | y :: ys => (x :: y) :: ys

/-- Index of the first occurrence of `sep` (a nonempty byte sequence) in `s`,
as Go's `strings.Index`. -/
def findSeqIdx (sep : List Char) : List Char → Option Nat
  | [] => if sep = [] then some 0 else none
  | x :: xs =>
    if cutPre sep (x :: xs) ≠ none then some 0
    else (findSeqIdx sep xs).map (· + 1)

/-- Go `strings.Contains(s, sep)`. -/
def containsSeq (sep s : List Char) : Bool :=
  (findSeqIdx sep s).isSome

/-- Fuel-indexed worker for `splitOnSeq`; the fuel dominates the length of
the remaining input. -/
def splitOnSeqGo (sep : List Char) : Nat → List Char → List (List Char)
  | 0, s => [s]
  | fuel + 1, s =>
    match findSeqIdx sep s with
    | none => [s]
    | some i => s.take i :: splitOnSeqGo sep fuel (s.drop (i + sep.length))

/-- Go `strings.Split(s, sep)` for a multi-byte separator: cut at each
occurrence of `sep`. -/
def splitOnSeq (sep s : List Char) : List (List Char) :=
  splitOnSeqGo sep (s.length + 1) s

/-- Helper for the digital-link branches: Go's
`if idx := strings.Index(x, "/"); idx > 0 { x = x[:idx] }` — strip a trailing
path only when the first `'/'` is at a positive index. -/
def stripAtSlash (s : List Char) : List Char :=
  match findSeqIdx ['/'] s with
  | some idx => if idx > 0 then s.take idx else s
  | none => s

/-- Field `parts[1]` after a Go `strings.Split`, guarded by
`len(parts) > 1`; yields `none` when there is no second field. -/
def secondField (parts : List (List Char)) : Option (List Char) :=
  match parts with
  | _ :: p1 :: _ => some p1
  | _ => none

/-- The URN-branch body of `ParseGTINFromSGTIN`, applied to the dot-separated
segments: the first character of the indicator-and-item-ref segment is the
indicator digit, the remainder the item reference; GTIN-13 =
indicator ++ company prefix ++ item reference normalized to 13 digits, then
the check digit is appended.  Fewer than two segments yield the empty
string. -/
def gtinFromSegments (segments : List (List Char)) : List Char :=
  match segments with
  | companyPrefix :: indicatorAndItemRef :: _ =>
    let indicator :=
      if indicatorAndItemRef.length > 0 then indicatorAndItemRef.take 1 else ['0']
    let itemRef :=
      if indicatorAndItemRef.length > 0 then indicatorAndItemRef.drop 1
      else indicatorAndItemRef
    let gtin13 := normalizeToLength (indicator ++ companyPrefix ++ itemRef) 13
    gtin13 ++ CalculateGS1CheckDigit gtin13
  | _ => []

/-- `ParseGTINFromSGTIN` from the `tasks` package: reconstruct the 14-digit
GTIN from an SGTIN URN (`urn:epc:id:sgtin:` or pattern `urn:epc:idpat:sgtin:`
form), or pass through a digital-link `/01/` GTIN-14. -/
def ParseGTINFromSGTIN (sgtinURN : List Char) : List Char :=
  if sgtinURN = [] then []
  else
    let cut :=
      match cutPre ("urn:epc:id:sgtin:".data) sgtinURN with
      | some parts => some parts
      | none => cutPre ("urn:epc:idpat:sgtin:".data) sgtinURN
    match cut with
    | some parts => gtinFromSegments (splitOnChar '.' parts)
    | none =>
      if containsSeq ("/01/".data) sgtinURN then
        match secondField (splitOnSeq ("/01/".data) sgtinURN) with
        | some gtinRaw =>
          let gtin := stripAtSlash gtinRaw
          if gtin.length ≥ 14 then gtin.take 14 else []
        | none => []
      else []

/-- The 17-digit SSCC base built from the dot-separated URN segments:
company prefix ++ serial reference, normalized to 17 digits.  Fewer than two
segments yield the empty string. -/
def sscc17FromSegments (segments : List (List Char)) : List Char :=
  match segments with
  | seg0 :: seg1 :: _ => normalizeToLength (seg0 ++ seg1) 17
  | _ => []

/-- The URN-branch body of `ParseSSCCFromURN`: the 17-digit base with the
computed check digit appended. -/
def ssccFromSegments (segments : List (List Char)) : List Char :=
  match segments with
  | seg0 :: seg1 :: _ =>
    let sscc17 := normalizeToLength (seg0 ++ seg1) 17
    sscc17 ++ CalculateGS1CheckDigit sscc17
  | _ => []

/-- `ParseSSCCFromURN` from the `tasks` package: concatenate company prefix
and serial reference of an `urn:epc:id:sscc:` URN, normalize to 17 digits and
append the computed check digit (an 18-digit result), or pass through a
digital-link `/00/` SSCC-18. -/
def ParseSSCCFromURN (ssccURN : List Char) : List Char :=
  if ssccURN = [] then []
  else
    match cutPre ("urn:epc:id:sscc:".data) ssccURN with
    | some parts => ssccFromSegments (splitOnChar '.' parts)
    | none =>
      if containsSeq ("/00/".data) ssccURN then
        match secondField (splitOnSeq ("/00/".data) ssccURN) with
        | some ssccRaw =>
          let sscc := stripAtSlash ssccRaw
          if sscc.length ≥ 18 then sscc.take 18 else []
        | none => []
      else []

/-- Modelled from the spec: `ParseSSCCFromURNNoCheckDigit` — the function
called by `extractSSCCFromEPC` in `src/tasks/epcis_extractor.go` — is not
among the source files under `src/`.  Per the spec (§4.1 `parseLogisticUnit`
and §9 "Dual SSCC convention"), this second logistic-unit calling convention
concatenates the company prefix and serial reference of a structured URN,
normalizes to 17 digits, and returns that 17-digit form WITHOUT appending a
check digit; the digital-link `/00/` pass-through is unchanged from the
general convention. -/
def ParseSSCCFromURNNoCheckDigit (ssccURN : List Char) : List Char :=
  if ssccURN = [] then []
  else
    match cutPre ("urn:epc:id:sscc:".data) ssccURN with
    | some parts => sscc17FromSegments (splitOnChar '.' parts)
    | none =>
      if containsSeq ("/00/".data) ssccURN then
        match secondField (splitOnSeq ("/00/".data) ssccURN) with
        | some ssccRaw =>
          let sscc := stripAtSlash ssccRaw
          if sscc.length ≥ 18 then sscc.take 18 else []
        | none => []
      else []

/-- `extractSSCCFromEPC` from `src/tasks/epcis_extractor.go`: returns the
17-digit SSCC WITHOUT check digit ("Bug fix #3 ... to match Mage behavior"). -/
def extractSSCCFromEPC (epc : List Char) : List Char :=
  ParseSSCCFromURNNoCheckDigit epc

/-! Candidate Selector (`PollApprovedShipments`, `tasks/outbound_shipments.go`)

The Directus queries are external; the selector is embedded as a pure
function of the queried approved shipments and of the dispatch-record lookup
map built from the queried `EPCIS_outbound` records. -/

/-- Projection of an `EPCIS_outbound` record as used by the selector
(`DispatchRecord` in `tasks/outbound_shipments.go`). -/
structure SelRecord where
  id : String
  status : String
  dispatchAttemptCount : Nat
  deriving Repr, DecidableEq

/-- One queried approved shipping operation (`id`, `capture_id`, `status`). -/
structure SelShipment where
  id : String
  captureID : String
  status : String
  deriving Repr, DecidableEq

/-- `ApprovedShipment` from `tasks/outbound_shipments.go`. -/
structure ApprovedShipment where
  shippingOperationID : String
  captureID : String
  status : String
  dispatchRecordID : Option String
  dispatchStatus : Option String
  dispatchAttemptCount : Nat
  deriving Repr, DecidableEq

/-- The per-shipment eligibility decision of `PollApprovedShipments`
(the `shouldDispatch` switch): no record → dispatch; `Acknowledged`/`Sent` →
skip; `Failed`/`Retrying` → retry only while `attempt count < maxAttempts`;
any other status (`Pending`/`Processing`) → resume. -/
def shouldDispatchDecision (rec : Option SelRecord) (maxAttempts : Nat) : Bool :=
  match rec with
  | none => true
  | some r =>
    if r.status = "Acknowledged" ∨ r.status = "Sent" then false
    else if r.status = "Failed" ∨ r.status = "Retrying" then
      decide (r.dispatchAttemptCount < maxAttempts)
    else true

/-- The candidate built for an eligible shipment (the `results` append in
`PollApprovedShipments`): fields default to `none`/`0` when no dispatch
record exists. -/
def mkCandidate (s : SelShipment) (recOpt : Option SelRecord) : ApprovedShipment :=
  { shippingOperationID := s.id
    captureID := s.captureID
    status := s.status
    dispatchRecordID := recOpt.map (·.id)
    dispatchStatus := recOpt.map (·.status)
    dispatchAttemptCount :=
      match recOpt with
      | some r => r.dispatchAttemptCount
      | none => 0 }

/-- The selection loop of `PollApprovedShipments`: skip shipments with a
missing id or capture id, append eligible candidates, and break once
`batchSize` results are accumulated. -/
def pollSelectGo (lookup : String → Option SelRecord) (batchSize maxAttempts : Nat) :
    List SelShipment → List ApprovedShipment → List ApprovedShipment
  | [], results => results
  | s :: rest, results =>
    if s.id = "" then pollSelectGo lookup batchSize maxAttempts rest results
    else if s.captureID = "" then pollSelectGo lookup batchSize maxAttempts rest results
    else
      let recOpt := lookup s.id
      let results' :=
        if shouldDispatchDecision recOpt maxAttempts then
          results ++ [mkCandidate s recOpt]
        else results
      if batchSize ≤ results'.length then results'
      else pollSelectGo lookup batchSize maxAttempts rest results'

/-- `PollApprovedShipments` (pure part): filter the queried approved
shipments against the dispatch ledger. -/
def pollApprovedShipments (lookup : String → Option SelRecord)
    (batchSize maxAttempts : Nat) (shipments : List SelShipment) :
    List ApprovedShipment :=
  pollSelectGo lookup batchSize maxAttempts shipments []

/-! Dispatch Executor (`tasks/dispatch_manager.go` and `DispatchViaTrustMed`)

The `EPCIS_outbound` record touched by one dispatch iteration is threaded
explicitly; the record-store operations themselves (create / patch / query)
are assumed to succeed, and the outcomes of the external file read and of the
secure submission channel are oracle parameters. -/

/-- The dispatch-relevant state of one `EPCIS_outbound` record.  Wall-clock
timestamp fields (`last_dispatch_attempt`, `date_dispatched`,
`date_acknowledged`, ...) are omitted. -/
structure OutboundRecord where
  status : String
  dispatchAttemptCount : Nat
  lastErrorMessage : String
  trustmedUUID : String
  httpStatusCode : Nat
  epcisJSONFileID : String
  epcisXMLFileID : String
  targetGLN : String
  /-- `trustmed_status`, written only by the Confirmation Reconciler. -/
  trustmedStatus : Option String
  deriving Repr, DecidableEq

/-- `UpdateDispatchStatusParams` from `tasks/dispatch_manager.go`. -/
structure UpdateDispatchStatusParams where
  errorMessage : String := ""
  trustMedUUID : String := ""
  httpStatusCode : Nat := 0
  epcisJSONFileID : String := ""
  epcisXMLFileID : String := ""
  targetGLN : String := ""
  deriving Repr, DecidableEq

/-- `CreateDispatchRecord` from `tasks/dispatch_manager.go`: a fresh record
has status `"pending"` and `dispatch_attempt_count = 0`. -/
def createDispatchRecord (targetGLN : String) : OutboundRecord :=
  { status := "pending"
    dispatchAttemptCount := 0
    lastErrorMessage := ""
    trustmedUUID := ""
    httpStatusCode := 0
    epcisJSONFileID := ""
    epcisXMLFileID := ""
    targetGLN := targetGLN
    trustmedStatus := none }

/-- `UpdateDispatchStatus` from `tasks/dispatch_manager.go` (the effect of
the patch on the record): the status is always written; each optional param
is written only when non-empty (non-zero for the HTTP code). -/
def updateDispatchStatus (rec : OutboundRecord) (status : String)
    (params : UpdateDispatchStatusParams) : OutboundRecord :=
  { rec with
    status := status
    lastErrorMessage :=
      if params.errorMessage ≠ "" then params.errorMessage else rec.lastErrorMessage
    trustmedUUID :=
      if params.trustMedUUID ≠ "" then params.trustMedUUID else rec.trustmedUUID
    httpStatusCode :=
      if params.httpStatusCode > 0 then params.httpStatusCode else rec.httpStatusCode
    epcisJSONFileID :=
      if params.epcisJSONFileID ≠ "" then params.epcisJSONFileID else rec.epcisJSONFileID
    epcisXMLFileID :=
      if params.epcisXMLFileID ≠ "" then params.epcisXMLFileID else rec.epcisXMLFileID
    targetGLN :=
      if params.targetGLN ≠ "" then params.targetGLN else rec.targetGLN }

/-- `IncrementDispatchAttempt` from `tasks/dispatch_manager.go`: read the
current count, write `count + 1`, return the new count. -/
def incrementDispatchAttempt (rec : OutboundRecord) : OutboundRecord × Nat :=
  let newCount := rec.dispatchAttemptCount + 1
  ({ rec with dispatchAttemptCount := newCount }, newCount)

/-- `capitalizeStatus` from the dispatch task file: uppercase the first byte
when it is a lowercase ASCII letter. -/
def capitalizeStatus (s : String) : String :=
  match s.data with
  | [] => s
  | first :: rest =>
    let first := if 'a' ≤ first ∧ first ≤ 'z' then Char.ofNat (first.toNat - 32) else first
    String.mk (first :: rest)

/-- Go `strings.Contains` on Lean `String`s, via the byte-list model. -/
def containsSubstr (sep s : String) : Bool :=
  containsSeq sep.data s.data

/-- The externally determined part of one `SubmitEPCIS` call, translated
from `TrustMedClient.SubmitEPCIS` (in the `tasks` package): the request
build can fail, `httpClient.Do` can fail — a request aborted by the caller's
cancellation signal surfaces here, because the request is built with
`http.NewRequestWithContext` and a cancelled context makes `Do` return an
error wrapping `ctx.Err()`, whose message contains `context canceled` —
reading the response body can fail, or a response with a status code and a
body is obtained. -/
inductive HTTPDoResult where
  | requestError (msg : String)
  | transportError (msg : String)
  | readError (statusCode : Nat) (msg : String)
  | response (statusCode : Nat) (body : String)
  deriving Repr, DecidableEq

/-- Result of `trustmedClient.SubmitEPCIS` as observed by the dispatch loop:
the partner transaction id on success, or the error message. -/
inductive SubmitEPCISResult where
  | ok (uuid : String)
  | err (msg : String)
  deriving Repr, DecidableEq

/-- `TrustMedClient.SubmitEPCIS` from the `tasks` package (error paths and
success value; logging omitted): a request-build error is wrapped as
`creating request:`, a `Do` error as `mTLS request failed:`, a body-read
error as `reading response body:`; a response with status `>= 400` yields
`TrustMed API error (HTTP <code>): <body>`; otherwise the body is parsed
(`json.Unmarshal`, the `parseResponse` oracle) into the transaction id, a
parse failure being wrapped as `parsing response JSON:`. -/
def SubmitEPCIS (doResult : HTTPDoResult)
    (parseResponse : String → Except String String) : SubmitEPCISResult :=
  match doResult with
  | .requestError msg => .err ("creating request: " ++ msg)
  | .transportError msg => .err ("mTLS request failed: " ++ msg)
  | .readError _ msg => .err ("reading response body: " ++ msg)
  | .response statusCode body =>
    if statusCode ≥ 400 then
      .err ("TrustMed API error (HTTP " ++ toString statusCode ++ "): " ++ body)
    else
      match parseResponse body with
      | .error e => .err ("parsing response JSON: " ++ e)
      | .ok id => .ok id

/-- `TrustMedClient.GetStatusCodeFromError` from the `tasks` package: `0`
for a nil error; otherwise the first of `HTTP 400/401/403/404/500/502/503`
contained in the error message, defaulting to `500` for every other error
(timeouts, connection errors, cancellation). -/
def GetStatusCodeFromError : Option String → Nat
  | none => 0
  | some errStr =>
    if containsSubstr "HTTP 400" errStr then 400
    else if containsSubstr "HTTP 401" errStr then 401
    else if containsSubstr "HTTP 403" errStr then 403
    else if containsSubstr "HTTP 404" errStr then 404
    else if containsSubstr "HTTP 500" errStr then 500
    else if containsSubstr "HTTP 502" errStr then 502
    else if containsSubstr "HTTP 503" errStr then 503
    else 500

/-- `DispatchResult` from the dispatch task file. -/
structure DispatchResult where
  shippingOperationID : String
  dispatchRecordID : String
  status : String
  trustmedUUID : String := ""
  errorMessage : String := ""
  deriving Repr, DecidableEq

/-- One iteration of the dispatch loop of `DispatchViaTrustMed` on one
record: increment the attempt count first, then read the enhanced XML
(`fileRead` oracle), then submit.  On a read failure the record is marked
`"Failed"`; on a submission error the HTTP status is extracted from the
error message with `GetStatusCodeFromError` and the final status is
`"retrying"` unless the new attempt count has reached
`cfg.DispatchMaxRetries`, in which case it is `"failed"`; on success the
record is marked `"Acknowledged"` with the partner transaction id.  (The
branch where `IncrementDispatchAttempt` itself fails — a record-store error —
is not modelled: the store is assumed reliable.) -/
def dispatchStep (maxRetries : Nat) (shipOpID recID : String)
    (rec : OutboundRecord) (fileRead : Except String Unit)
    (submit : SubmitEPCISResult) : OutboundRecord × DispatchResult :=
  let (rec, attemptCount) := incrementDispatchAttempt rec
  match fileRead with
  | .error msg =>
    let errMsg := "Failed to read XML: " ++ msg
    (updateDispatchStatus rec "Failed" { errorMessage := errMsg },
     { shippingOperationID := shipOpID, dispatchRecordID := recID,
       status := "failed", errorMessage := errMsg })
  | .ok _ =>
    match submit with
    | .err msg =>
      let httpStatus := GetStatusCodeFromError (some msg)
      let finalStatus := if attemptCount ≥ maxRetries then "failed" else "retrying"
      (updateDispatchStatus rec (capitalizeStatus finalStatus)
         { errorMessage := msg, httpStatusCode := httpStatus },
       { shippingOperationID := shipOpID, dispatchRecordID := recID,
         status := finalStatus, errorMessage := msg })
    | .ok uuid =>
      (updateDispatchStatus rec "Acknowledged"
         { trustMedUUID := uuid, httpStatusCode := 200 },
       { shippingOperationID := shipOpID, dispatchRecordID := recID,
         status := "sent", trustmedUUID := uuid })

/-! Confirmation Reconciler (`PollDispatchConfirmation`)

The reconciler combines the dispatch results of this run with the previously
acknowledged records returned by the store query
(`status = "Acknowledged"`, `trustmed_uuid` non-null, `trustmed_status`
null); one partner status query and one record update are issued per element
of the combined list. -/

/-- A record returned by the reconciler's `EPCIS_outbound` query
(fields `id`, `trustmed_uuid`, `shipping_operation_id`). -/
structure AckRecord where
  id : String
  trustmedUUID : String
  shippingOperationID : String
  deriving Repr, DecidableEq

/-- The store-side filter of the reconciler's query: status `"Acknowledged"`,
`trustmed_uuid` non-null, `trustmed_status` null. -/
def ackQueryFilter (rec : OutboundRecord) : Bool :=
  rec.status = "Acknowledged" && rec.trustmedUUID ≠ "" && rec.trustmedStatus = none

/-- The candidate set of `PollDispatchConfirmation`: the `"sent"` results of
this run (with a non-empty transaction id) followed by every queried
acknowledged record with a non-empty transaction id.  One partner status
query and one record update are performed per element of this list. -/
def buildAllToCheck (dispatchResults : List DispatchResult)
    (acknowledgedRecords : List AckRecord) : List DispatchResult :=
  let sentResults := dispatchResults.filter
    (fun r => r.status = "sent" && r.trustmedUUID ≠ "")
  sentResults ++ acknowledgedRecords.filterMap (fun rec =>
    if rec.trustmedUUID ≠ "" then
      some { shippingOperationID := rec.shippingOperationID,
             dispatchRecordID := rec.id,
             status := "",
             trustmedUUID := rec.trustmedUUID }
    else none)

/-! Batch Guard (threshold check of `ManageDispatchRecords`,
`BuildEPCISDocuments`, ...)

Each batch operation processes its items in order; an item either
contributes a result or fails (its per-item outcome is decided by external
calls and is an oracle parameter here).  After the loop, if the failure rate
strictly exceeds the configured threshold the whole operation returns an
error; otherwise it returns the successful subset. -/

/-- The batch loop with threshold guard shared by `ManageDispatchRecords` and
`BuildEPCISDocuments`: `outcomes` holds, per attempted item, `some result` or
`none` for a failed item.  An empty batch returns the empty result;
otherwise the operation aborts exactly when
`failedCount / attemptedCount > threshold`. -/
def runBatchWithGuard {α : Type} (threshold : ℚ) (outcomes : List (Option α)) :
    Except String (List α) :=
  if outcomes.isEmpty then .ok []
  else
    let results := outcomes.filterMap id
    let failedCount := outcomes.countP (fun o => o.isNone)
    if (failedCount : ℚ) / (outcomes.length : ℚ) > threshold then
      .error "failure rate exceeds threshold"
    else .ok results

/-! Shared lemmas about the embedded definitions. -/

/-- `strings.CutPrefix` succeeds on an explicit prefix and returns the rest. -/
theorem cutPre_append (p r : List Char) : cutPre p (p ++ r) = some r := by
  induction p with
  | nil => rfl
  | cons a ps ih => simp [cutPre, ih]

/-- Splitting at a separator that first occurs right after a separator-free
chunk peels off exactly that chunk. -/
theorem splitOnChar_append_cons {c : Char} (a ys : List Char)
    (h : ∀ x ∈ a, x ≠ c) :
    splitOnChar c (a ++ c :: ys) = a :: splitOnChar c ys := by
  induction a with
  | nil => simp [splitOnChar]
  | cons x xs ih =>
    have hx : x ≠ c := h x (by simp)
    have ih' := ih (fun y hy => h y (by simp [hy]))
    simp only [List.cons_append, splitOnChar, if_neg hx]
    rw [List.append_eq, ih']

/-- `normalizeToLength` always produces exactly the requested length. -/
theorem normalizeToLength_length (s : List Char) (n : Nat) :
    (normalizeToLength s n).length = n := by
  unfold normalizeToLength
  split_ifs with h1 h2
  · simp only [List.length_append, List.length_replicate]
    omega
  · simp only [List.length_take]
    omega
  · omega

/-- The check digit of a nonempty base is a single character. -/
theorem checkDigit_length (base : List Char) (h : base ≠ []) :
    (CalculateGS1CheckDigit base).length = 1 := by
  unfold CalculateGS1CheckDigit
  simp [h]

end HudSci

namespace HudSci

/-! Claim theorems, one per claim, with witnesses and counterexamples. -/

/-- Claim C2, counterexample: the claim states that `normalizeLength(s, n)`
truncates an over-long input to the LAST `n` characters.  The code truncates
with `s[:length]`: on input `"1234567"` with `n = 5` it returns the FIRST
five characters `"12345"`, not the last five `"34567"`, so the claim as
stated is false. -/
theorem normalizeToLength_truncates_first_not_last :
    normalizeToLength ("1234567".data) 5 = "12345".data ∧
      normalizeToLength ("1234567".data) 5 ≠ "34567".data := by
  constructor
  · decide
  · decide

/-- Claim C2, amended: `normalizeToLength(s, n)` returns a string of length
exactly `n` for every input: left-padded with `'0'` when `s` is shorter than
`n`, and truncated to the FIRST `n` characters (not the last `n`) when `s`
is longer. -/
theorem normalizeToLength_amended_spec (s : List Char) (n : Nat) :
    (normalizeToLength s n).length = n ∧
      (s.length < n → normalizeToLength s n = List.replicate (n - s.length) '0' ++ s) ∧
      (s.length > n → normalizeToLength s n = s.take n) := by
  refine ⟨normalizeToLength_length s n, fun h => ?_, fun h => ?_⟩
  · unfold normalizeToLength
    rw [if_pos h]
  · unfold normalizeToLength
    rw [if_neg (by omega), if_pos h]

/-- Claim C2, witness: the amended behaviour evaluated at concrete inputs:
`"123"` is left-padded to `"00123"` and `"1234567"` is truncated to its
first five characters `"12345"`. -/
theorem normalizeToLength_amended_spec_witness :
    normalizeToLength ("123".data) 5 = List.replicate 2 '0' ++ "123".data ∧
      normalizeToLength ("1234567".data) 5 = ("1234567".data).take 5 :=
  ⟨(normalizeToLength_amended_spec ("123".data) 5).2.1 (by decide),
   (normalizeToLength_amended_spec ("1234567".data) 5).2.2 (by decide)⟩

/-- On an input that carries the SGTIN URN prefix, `ParseGTINFromSGTIN`
takes the URN branch on the dot-separated remainder. -/
theorem parseGTIN_urn (rest : List Char) :
    ParseGTINFromSGTIN ("urn:epc:id:sgtin:".data ++ rest) =
      gtinFromSegments (splitOnChar '.' rest) := by
  have hne : "urn:epc:id:sgtin:".data ++ rest ≠ [] := by simp
  unfold ParseGTINFromSGTIN
  rw [if_neg hne, cutPre_append]

/-- On an input that carries the SSCC URN prefix, `ParseSSCCFromURN` takes
the URN branch on the dot-separated remainder. -/
theorem parseSSCC_urn (rest : List Char) :
    ParseSSCCFromURN ("urn:epc:id:sscc:".data ++ rest) =
      ssccFromSegments (splitOnChar '.' rest) := by
  have hne : "urn:epc:id:sscc:".data ++ rest ≠ [] := by simp
  unfold ParseSSCCFromURN
  rw [if_neg hne, cutPre_append]

/-- On an input that carries the SSCC URN prefix,
`ParseSSCCFromURNNoCheckDigit` takes the URN branch on the dot-separated
remainder. -/
theorem noCheck_urn (rest : List Char) :
    ParseSSCCFromURNNoCheckDigit ("urn:epc:id:sscc:".data ++ rest) =
      sscc17FromSegments (splitOnChar '.' rest) := by
  have hne : "urn:epc:id:sscc:".data ++ rest ≠ [] := by simp
  unfold ParseSSCCFromURNNoCheckDigit
  rw [if_neg hne, cutPre_append]

/-- Claim C8 (confirmed): `ParseGTINFromSGTIN` maps
`urn:epc:id:sgtin:0368462.050165.<serial>` to `"00368462501658"` for EVERY
serial value: the indicator digit `0` (first character of the
indicator-and-item-ref segment `050165`) is prepended to the company prefix
`0368462` and item reference `50165`, normalized to 13 digits
(`0036846250165`), and the GS1 check digit `8` appended; the serial segment
is never consulted. -/
theorem parseGTIN_sgtin_serial_independent (serial : List Char) :
    ParseGTINFromSGTIN ("urn:epc:id:sgtin:0368462.050165.".data ++ serial) =
      "00368462501658".data := by
  have h1 : "urn:epc:id:sgtin:0368462.050165.".data ++ serial =
      "urn:epc:id:sgtin:".data ++ ("0368462.050165.".data ++ serial) := rfl
  rw [h1, parseGTIN_urn]
  have h2 : "0368462.050165.".data ++ serial =
      "0368462".data ++ '.' :: ("050165".data ++ '.' :: serial) := rfl
  rw [h2, splitOnChar_append_cons _ _ (by decide),
      splitOnChar_append_cons _ _ (by decide)]
  rfl

/-- Claim C5 (confirmed): for every structured SSCC URN (prefix
`urn:epc:id:sscc:` with at least two dot-separated segments), the inbound
extraction convention `extractSSCCFromEPC` returns the 17-digit normalized
form of company-prefix ++ serial-reference WITHOUT a check digit, while the
general convention `ParseSSCCFromURN` returns exactly that 17-digit form
with the computed check digit appended — an 18-digit result. -/
theorem sscc_dual_convention (rest seg0 seg1 : List Char)
    (tail : List (List Char))
    (hsplit : splitOnChar '.' rest = seg0 :: seg1 :: tail) :
    extractSSCCFromEPC ("urn:epc:id:sscc:".data ++ rest) =
        normalizeToLength (seg0 ++ seg1) 17 ∧
      (extractSSCCFromEPC ("urn:epc:id:sscc:".data ++ rest)).length = 17 ∧
      ParseSSCCFromURN ("urn:epc:id:sscc:".data ++ rest) =
        extractSSCCFromEPC ("urn:epc:id:sscc:".data ++ rest) ++
          CalculateGS1CheckDigit (extractSSCCFromEPC ("urn:epc:id:sscc:".data ++ rest)) ∧
      (ParseSSCCFromURN ("urn:epc:id:sscc:".data ++ rest)).length = 18 := by
  have hx : extractSSCCFromEPC ("urn:epc:id:sscc:".data ++ rest) =
      normalizeToLength (seg0 ++ seg1) 17 := by
    rw [extractSSCCFromEPC, noCheck_urn, hsplit]
    rfl
  have hlen : (normalizeToLength (seg0 ++ seg1) 17).length = 17 :=
    normalizeToLength_length _ _
  have hnn : normalizeToLength (seg0 ++ seg1) 17 ≠ [] := by
    intro h
    rw [h] at hlen
    simp at hlen
  have hp : ParseSSCCFromURN ("urn:epc:id:sscc:".data ++ rest) =
      normalizeToLength (seg0 ++ seg1) 17 ++
        CalculateGS1CheckDigit (normalizeToLength (seg0 ++ seg1) 17) := by
    rw [parseSSCC_urn, hsplit]
    rfl
  refine ⟨hx, by rw [hx]; exact hlen, by rw [hx, hp], ?_⟩
  rw [hp]
  simp [List.length_append, hlen, checkDigit_length _ hnn]

/-- Claim C5, witness: the dual convention evaluated on the concrete URN
`urn:epc:id:sscc:030001.1234567890` — the extraction convention yields the
17-digit `00300011234567890`, the general convention the 18-digit
`003000112345678903`. -/
theorem sscc_dual_convention_witness :
    extractSSCCFromEPC ("urn:epc:id:sscc:030001.1234567890".data) =
        "00300011234567890".data ∧
      ParseSSCCFromURN ("urn:epc:id:sscc:030001.1234567890".data) =
        "003000112345678903".data := by
  have h := sscc_dual_convention ("030001.1234567890".data)
    ("030001".data) ("1234567890".data) [] (by decide)
  exact ⟨h.1.trans (by decide), h.2.2.1.trans (by decide)⟩

/-- Claim C1, counterexample: an HTTP 400 response — which `SubmitEPCIS`
turns into the error `TrustMed API error (HTTP 400): ...` — on the first
attempt with `maxRetries = 3` is classified `"retrying"`, not `"failed"` —
the dispatch loop classifies failures by attempt count alone and never
inspects the response class, so the claim as stated is false. -/
theorem dispatch_4xx_retrying_cex :
    (dispatchStep 3 "ship-1" "disp-1" (createDispatchRecord "") (.ok ())
        (SubmitEPCIS (.response 400 "Bad Request") (fun body => .ok body))).2.status
      = "retrying" ∧ ("retrying" : String) ≠ "failed" := by
  constructor
  · decide
  · decide

/-- Claim C1, amended: a client-class submission failure — an error whose
`GetStatusCodeFromError` status is in the 4xx range — is classified exactly
like every other submission failure, by attempt count alone: `"failed"` when
the incremented attempt count has reached `maxRetries`, `"retrying"`
otherwise, with the record transitioned to the capitalized form of the same
status. -/
theorem dispatch_failure_by_attempts_only (maxRetries : Nat)
    (shipOpID recID : String) (rec : OutboundRecord) (msg : String)
    (h4 : 400 ≤ GetStatusCodeFromError (some msg))
    (h5 : GetStatusCodeFromError (some msg) < 500) :
    (dispatchStep maxRetries shipOpID recID rec (.ok ()) (.err msg)).2.status =
        (if rec.dispatchAttemptCount + 1 ≥ maxRetries then "failed" else "retrying") ∧
      (dispatchStep maxRetries shipOpID recID rec (.ok ()) (.err msg)).1.status =
        capitalizeStatus
          (if rec.dispatchAttemptCount + 1 ≥ maxRetries then "failed" else "retrying") := by
  unfold dispatchStep incrementDispatchAttempt updateDispatchStatus
  constructor <;> simp

/-- Claim C1, witness: the error message `TrustMed API error (HTTP 404): Not
Found` has extracted status 404 (client-class), and on a fresh record with
`maxRetries = 3` it yields result status `"retrying"` and record status
`"Retrying"`. -/
theorem dispatch_failure_by_attempts_only_witness :
    (dispatchStep 3 "ship-1" "disp-1" (createDispatchRecord "") (.ok ())
        (.err "TrustMed API error (HTTP 404): Not Found")).2.status
      = "retrying" ∧
    (dispatchStep 3 "ship-1" "disp-1" (createDispatchRecord "") (.ok ())
        (.err "TrustMed API error (HTTP 404): Not Found")).1.status
      = "Retrying" := by
  have h := dispatch_failure_by_attempts_only 3 "ship-1" "disp-1"
    (createDispatchRecord "") "TrustMed API error (HTTP 404): Not Found"
    (by decide) (by decide)
  exact ⟨h.1.trans (by decide), h.2.trans (by decide)⟩

/-- Claim C4, counterexample: a submission aborted by the caller's
cancellation signal — `httpClient.Do` fails with an error whose message
contains `context canceled`, which `SubmitEPCIS` wraps as
`mTLS request failed: ...` — on a record whose incremented attempt count
reaches `maxRetries = 3` IS recorded as a dispatch outcome and transitions
the record to the permanent `"Failed"` status, so the claim as stated is
false. -/
theorem cancellation_recorded_as_failed_cex :
    (dispatchStep 3 "ship-2" "disp-2"
        { status := "Retrying", dispatchAttemptCount := 2, lastErrorMessage := "",
          trustmedUUID := "", httpStatusCode := 0, epcisJSONFileID := "",
          epcisXMLFileID := "", targetGLN := "", trustmedStatus := none }
        (.ok ())
        (SubmitEPCIS
          (.transportError "Post \"https://demo.partner.trust.med\": context canceled")
          (fun body => .ok body))).1.status = "Failed" ∧
    (dispatchStep 3 "ship-2" "disp-2"
        { status := "Retrying", dispatchAttemptCount := 2, lastErrorMessage := "",
          trustmedUUID := "", httpStatusCode := 0, epcisJSONFileID := "",
          epcisXMLFileID := "", targetGLN := "", trustmedStatus := none }
        (.ok ())
        (SubmitEPCIS
          (.transportError "Post \"https://demo.partner.trust.med\": context canceled")
          (fun body => .ok body))).2.status = "failed" := by
  constructor
  · decide
  · decide

/-- Claim C4, amended: a cancelled submission — an in-flight call aborted by
the caller's cancellation signal, surfacing as a `Do` transport error whose
message contains `context canceled` — IS recorded as a dispatch outcome,
classified exactly like any other submission failure: `"retrying"` while
attempts remain, escalated to the permanent `"failed"` status when the
incremented attempt count has reached `maxRetries`. -/
theorem cancellation_recorded_like_failure (maxRetries : Nat)
    (shipOpID recID : String) (rec : OutboundRecord) (doErrMsg : String)
    (parseResponse : String → Except String String)
    (hcancel : containsSubstr "context canceled" doErrMsg = true) :
    (dispatchStep maxRetries shipOpID recID rec (.ok ())
        (SubmitEPCIS (.transportError doErrMsg) parseResponse)).2.status =
        (if rec.dispatchAttemptCount + 1 ≥ maxRetries then "failed" else "retrying") ∧
      (dispatchStep maxRetries shipOpID recID rec (.ok ())
          (SubmitEPCIS (.transportError doErrMsg) parseResponse)).1.status =
        capitalizeStatus
          (if rec.dispatchAttemptCount + 1 ≥ maxRetries then "failed" else "retrying") := by
  unfold SubmitEPCIS dispatchStep incrementDispatchAttempt updateDispatchStatus
  constructor <;> simp

/-- Claim C4, witness: a cancelled in-flight submission
(`mTLS request failed: Post ...: context canceled`) on a fresh record with
`maxRetries = 3` is recorded with result status `"retrying"` and record
status `"Retrying"`. -/
theorem cancellation_recorded_like_failure_witness :
    (dispatchStep 3 "ship-3" "disp-3" (createDispatchRecord "") (.ok ())
        (SubmitEPCIS
          (.transportError "Post \"https://demo.partner.trust.med\": context canceled")
          (fun body => .ok body))).2.status = "retrying" ∧
    (dispatchStep 3 "ship-3" "disp-3" (createDispatchRecord "") (.ok ())
        (SubmitEPCIS
          (.transportError "Post \"https://demo.partner.trust.med\": context canceled")
          (fun body => .ok body))).1.status = "Retrying" := by
  have h := cancellation_recorded_like_failure 3 "ship-3" "disp-3"
    (createDispatchRecord "")
    "Post \"https://demo.partner.trust.med\": context canceled"
    (fun body => .ok body) (by decide)
  exact ⟨h.1.trans (by decide), h.2.trans (by decide)⟩

/-- Claim C9 (confirmed): after one dispatch-execution cycle on a fresh
candidate (a record just created by `CreateDispatchRecord`, at attempt count
0), the record's attempt count equals exactly 1, whatever the file-read and
submission outcomes — the single increment happens before the external
submission call. -/
theorem dispatch_attempt_count_after_first_cycle (maxRetries : Nat)
    (shipOpID recID targetGLN : String) (fileRead : Except String Unit)
    (submit : SubmitEPCISResult) :
    ((dispatchStep maxRetries shipOpID recID (createDispatchRecord targetGLN)
        fileRead submit).1).dispatchAttemptCount = 1 := by
  unfold dispatchStep incrementDispatchAttempt updateDispatchStatus createDispatchRecord
  cases fileRead with
  | error msg => simp
  | ok u =>
    cases submit with
    | ok uuid => simp
    | err msg => simp

/-- Every candidate produced by the selection loop was appended there with a
positive eligibility decision. -/
theorem mem_pollSelectGo (lookup : String → Option SelRecord)
    (batchSize maxAttempts : Nat) :
    ∀ (shipments : List SelShipment) (results : List ApprovedShipment)
      (c : ApprovedShipment),
      c ∈ pollSelectGo lookup batchSize maxAttempts shipments results →
      c ∈ results ∨ ∃ s : SelShipment,
        shouldDispatchDecision (lookup s.id) maxAttempts = true ∧
        c = mkCandidate s (lookup s.id) := by
  intro shipments
  induction shipments with
  | nil =>
    intro results c hc
    exact Or.inl hc
  | cons s rest ih =>
    intro results c hc
    unfold pollSelectGo at hc
    by_cases hid : s.id = ""
    · rw [if_pos hid] at hc
      exact ih results c hc
    · rw [if_neg hid] at hc
      by_cases hcap : s.captureID = ""
      · rw [if_pos hcap] at hc
        exact ih results c hc
      · rw [if_neg hcap] at hc
        simp only at hc
        by_cases hdec : shouldDispatchDecision (lookup s.id) maxAttempts = true
        · rw [if_pos hdec] at hc
          by_cases hbs : batchSize ≤ (results ++ [mkCandidate s (lookup s.id)]).length
          · rw [if_pos hbs] at hc
            rcases List.mem_append.mp hc with h | h
            · exact Or.inl h
            · exact Or.inr ⟨s, hdec, (List.mem_singleton.mp h)⟩
          · rw [if_neg hbs] at hc
            rcases ih _ c hc with h | h
            · rcases List.mem_append.mp h with h' | h'
              · exact Or.inl h'
              · exact Or.inr ⟨s, hdec, (List.mem_singleton.mp h')⟩
            · exact Or.inr h
        · rw [if_neg hdec] at hc
          by_cases hbs : batchSize ≤ results.length
          · rw [if_pos hbs] at hc
            exact Or.inl hc
          · rw [if_neg hbs] at hc
            exact ih _ c hc

/-- Claim C6 (confirmed): the Candidate Selector never returns a candidate
whose dispatch record status is `"Acknowledged"` (for any attempt count),
every returned `"Failed"`/`"Retrying"` candidate has attempt count strictly
below `maxAttempts`, and at the per-record eligibility decision a
`"Failed"`/`"Retrying"` record is eligible IF AND ONLY IF its attempt count
is strictly below `maxAttempts` (so `maxAttempts - 1` is eligible and
`maxAttempts` is not). -/
theorem candidate_selector_retry_ceiling (maxAttempts : Nat) :
    (∀ (lookup : String → Option SelRecord) (batchSize : Nat)
       (shipments : List SelShipment) (c : ApprovedShipment),
       c ∈ pollApprovedShipments lookup batchSize maxAttempts shipments →
         c.dispatchStatus ≠ some "Acknowledged" ∧
         ((c.dispatchStatus = some "Failed" ∨ c.dispatchStatus = some "Retrying") →
           c.dispatchAttemptCount < maxAttempts)) ∧
    (∀ r : SelRecord, r.status = "Failed" ∨ r.status = "Retrying" →
       (shouldDispatchDecision (some r) maxAttempts = true ↔
         r.dispatchAttemptCount < maxAttempts)) := by
  constructor
  · intro lookup batchSize shipments c hc
    rcases mem_pollSelectGo lookup batchSize maxAttempts shipments [] c hc with
      h | ⟨s, hdec, hcand⟩
    · simp at h
    · subst hcand
      cases hrec : lookup s.id with
      | none => simp [mkCandidate, hrec]
      | some r =>
        rw [hrec] at hdec
        have hdec' : (if r.status = "Acknowledged" ∨ r.status = "Sent" then false
            else if r.status = "Failed" ∨ r.status = "Retrying" then
              decide (r.dispatchAttemptCount < maxAttempts)
            else true) = true := hdec
        simp only [mkCandidate, hrec, Option.map_some]
        by_cases hack : r.status = "Acknowledged" ∨ r.status = "Sent"
        · rw [if_pos hack] at hdec'
          exact absurd hdec' (by simp)
        · rw [if_neg hack] at hdec'
          constructor
          · intro heq
            exact hack (Or.inl (by injection heq))
          · intro hfr
            have hfr' : r.status = "Failed" ∨ r.status = "Retrying" := by
              rcases hfr with h | h
              · exact Or.inl (by injection h)
              · exact Or.inr (by injection h)
            rw [if_pos hfr'] at hdec'
            exact of_decide_eq_true hdec'
  · intro r hfr
    have hack : ¬ (r.status = "Acknowledged" ∨ r.status = "Sent") := by
      rcases hfr with h | h <;> rw [h] <;> decide
    show (if r.status = "Acknowledged" ∨ r.status = "Sent" then false
        else if r.status = "Failed" ∨ r.status = "Retrying" then
          decide (r.dispatchAttemptCount < maxAttempts)
        else true) = true ↔ r.dispatchAttemptCount < maxAttempts
    rw [if_neg hack, if_pos hfr]
    simp

/-- Claim C6, witness: with `maxAttempts = 3`, a shipment whose record is
`"Retrying"` at attempt count 2 (= `maxAttempts - 1`) is selected and its
count is below the ceiling; the eligibility decision for that record is
equivalent to `2 < 3`. -/
theorem candidate_selector_retry_ceiling_witness :
    (mkCandidate ⟨"s1", "c1", "approved"⟩
        (some ⟨"d1", "Retrying", 2⟩)).dispatchAttemptCount < 3 ∧
      (shouldDispatchDecision (some ⟨"d1", "Retrying", 2⟩) 3 = true ↔ 2 < 3) := by
  have h := candidate_selector_retry_ceiling 3
  refine ⟨?_, h.2 ⟨"d1", "Retrying", 2⟩ (Or.inr rfl)⟩
  have hm := h.1 (fun i => if i = "s1" then some ⟨"d1", "Retrying", 2⟩ else none)
    10 [⟨"s1", "c1", "approved"⟩]
    (mkCandidate ⟨"s1", "c1", "approved"⟩ (some ⟨"d1", "Retrying", 2⟩)) (by decide)
  exact hm.2 (Or.inr (by decide))

/-- Claim C10 (confirmed): the Candidate Selector also skips every approved
shipping operation whose dispatch record status is `"Sent"`: no candidate it
returns carries dispatch status `"Sent"`, for any attempt-count value. -/
theorem candidate_selector_skips_sent (lookup : String → Option SelRecord)
    (batchSize maxAttempts : Nat) (shipments : List SelShipment)
    (c : ApprovedShipment)
    (hc : c ∈ pollApprovedShipments lookup batchSize maxAttempts shipments) :
    c.dispatchStatus ≠ some "Sent" := by
  rcases mem_pollSelectGo lookup batchSize maxAttempts shipments [] c hc with
    h | ⟨s, hdec, hcand⟩
  · simp at h
  · subst hcand
    cases hrec : lookup s.id with
    | none => simp [mkCandidate, hrec]
    | some r =>
      rw [hrec] at hdec
      have hdec' : (if r.status = "Acknowledged" ∨ r.status = "Sent" then false
          else if r.status = "Failed" ∨ r.status = "Retrying" then
            decide (r.dispatchAttemptCount < maxAttempts)
          else true) = true := hdec
      simp only [mkCandidate, hrec, Option.map_some]
      by_cases hack : r.status = "Acknowledged" ∨ r.status = "Sent"
      · rw [if_pos hack] at hdec'
        exact absurd hdec' (by simp)
      · intro heq
        exact hack (Or.inr (by injection heq))

/-- Claim C10, witness: a concrete selection run (one shipment with a
`"Pending"` record) produces a candidate, and that candidate's dispatch
status is not `"Sent"`. -/
theorem candidate_selector_skips_sent_witness :
    (mkCandidate ⟨"s1", "c1", "approved"⟩
        (some ⟨"d1", "Pending", 0⟩)).dispatchStatus ≠ some "Sent" :=
  candidate_selector_skips_sent
    (fun i => if i = "s1" then some ⟨"d1", "Pending", 0⟩ else none)
    10 3 [⟨"s1", "c1", "approved"⟩] _ (by decide)

/-- Claim C3 (code bug): a record just transitioned to `"Acknowledged"` by a
successful dispatch matches the reconciler's store query for previously
acknowledged unconfirmed records (`status = "Acknowledged"`, transaction id
set, `trustmed_status` null), and when it consequently appears both in the
`"sent"` results of this run and in the query result, the reconciler's
candidate list contains it TWICE — two status queries and two record
updates, not the single one the claim (and the repository's own
`TestPollDispatchConfirmation_Dedup`) requires. -/
theorem pollConfirmation_no_dedup_double_checks :
    ackQueryFilter ((dispatchStep 3 "ship-001" "240001" (createDispatchRecord "")
        (.ok ()) (.ok "uuid-001")).1) = true ∧
    (buildAllToCheck
        [(dispatchStep 3 "ship-001" "240001" (createDispatchRecord "")
            (.ok ()) (.ok "uuid-001")).2]
        [{ id := "240001", trustmedUUID := "uuid-001",
           shippingOperationID := "ship-001" }]).countP
      (fun r => r.dispatchRecordID = "240001") = 2 := by
  constructor
  · decide
  · decide

/-- Claim C7 (confirmed): for every non-empty batch, the guarded batch
operation returns an aborting error exactly when
`failedCount / attemptedCount` strictly exceeds the threshold, and
otherwise returns exactly the successful subset. -/
theorem batch_guard_threshold {α : Type} (threshold : ℚ)
    (outcomes : List (Option α)) (hne : outcomes ≠ []) :
    ((∃ msg, runBatchWithGuard threshold outcomes = .error msg) ↔
      ((outcomes.countP (fun o => o.isNone) : ℚ) / (outcomes.length : ℚ) >
        threshold)) ∧
    (¬ ((outcomes.countP (fun o => o.isNone) : ℚ) / (outcomes.length : ℚ) >
        threshold) →
      runBatchWithGuard threshold outcomes = .ok (outcomes.filterMap id)) := by
  unfold runBatchWithGuard
  rw [if_neg (by simpa [List.isEmpty_iff] using hne)]
  by_cases h : ((outcomes.countP (fun o => o.isNone) : ℚ) / (outcomes.length : ℚ) >
      threshold)
  · rw [if_pos h]
    exact ⟨⟨fun _ => h, fun hh => ⟨_, rfl⟩⟩, fun hn => absurd h hn⟩
  · rw [if_neg h]
    refine ⟨⟨fun ⟨msg, hmsg⟩ => by simp at hmsg, fun hh => absurd hh h⟩, fun _ => rfl⟩

/-- Claim C7, witness: with 4 attempted items and 3 failures at threshold
one half the operation aborts with an error; with 2 failures it returns the
2-item success result. -/
theorem batch_guard_threshold_witness :
    (∃ msg, runBatchWithGuard (1/2 : ℚ)
        [some "a", none, none, none] = .error msg) ∧
    runBatchWithGuard (1/2 : ℚ) [some "a", some "b", none, none] =
      .ok ["a", "b"] := by
  constructor
  · exact (batch_guard_threshold (1/2 : ℚ) [some "a", none, none, none]
      (by decide)).1.mpr (by norm_num)
  · have h := (batch_guard_threshold (1/2 : ℚ) [some "a", some "b", none, none]
      (by decide)).2 (by norm_num)
    simpa using h

end HudSci
